import Mathlib

/-
Shallow embedding of the enemy-template tooling core:
  - EnemyTemplate.cpp   (UEnemyTemplate::ValidateTemplate, ApplyToInstance,
                         GetInheritanceChain, ValidateVisualAssets,
                         ValidateAIConfiguration, ValidateAbilities)
  - EnemyConfiguration.cpp (UEnemyConfiguration::ValidateConfiguration)
  - EnemyTemplateTypes.h  (data records and FEnemyTemplateValidationResult)

Modelling conventions:
  - UObject pointers are heap ids (Nat); the heap is an explicit Store
    (List UEnemyTemplate); pointer dereference is lookup by id.
  - Soft asset references are observed only through IsValid, so they are
    modelled as Bool (true = the reference resolves).
  - float is modelled as Rat (the code does only multiplication and
    comparison on these values).
  - FName is modelled as String; NAME_None is the empty string.
  - FText messages are Strings; quotation marks that the original FText
    formats place around names are elided.
  - TMap is modelled as an association list in insertion order; TArray as
    List.
  - The recursive ValidateTemplate has no cycle guard in the source, so it
    is embedded with explicit fuel: a result of none means the recursion
    did not bottom out within the given fuel.
-/

structure FEnemyBaseStats where
  Health : Rat
  Damage : Rat
  Speed : Rat
  AttackSpeed : Rat
  Defense : Rat
  CriticalChance : Rat
  CriticalMultiplier : Rat
deriving DecidableEq

/-- The rational 1/20, written without division so that it reduces in the
kernel. -/
def RatOneTwentieth : Rat :=
  { num := 1, den := 20, den_nz := by omega, reduced := Nat.coprime_one_left 20 }

/-- The rational 1/2, written without division so that it reduces in the
kernel. -/
def RatHalf : Rat :=
  { num := 1, den := 2, den_nz := by omega, reduced := Nat.coprime_one_left 2 }

/-- Field defaults from EnemyTemplateTypes.h (CriticalChance 0.05 = 1/20). -/
def DefaultBaseStats : FEnemyBaseStats :=
  { Health := 100, Damage := 20, Speed := 300, AttackSpeed := 1,
    Defense := 10, CriticalChance := RatOneTwentieth, CriticalMultiplier := 2 }

/-- Ability record. The checked-in EnemyTemplateTypes.h declares
AbilityMontage/AbilityEffects; EnemyTemplate.cpp additionally reads an
AbilityClass soft class reference, which is included here. -/
structure FEnemyAbilityDefinition where
  AbilityName : String
  DisplayName : String
  Description : String
  AbilityTags : List String
  CooldownTime : Rat
  Range : Rat
  Cost : Rat
  bIsPassive : Bool
  AbilityClass : Bool
  AbilityMontage : Bool
  AbilityEffects : List Bool
deriving DecidableEq

structure FEnemyAIConfig where
  BehaviorTree : Bool
  Blackboard : Bool
  AggressionLevel : Rat
  PreferredRange : Rat
  bUseCover : Bool
  bCoordinateWithAllies : Bool
  BehaviorParameters : List (String × Rat)
  PersonalityTags : List String
deriving DecidableEq

structure FEnemyVisualCustomization where
  SkeletalMesh : Bool
  AnimationBlueprint : Bool
  Scale : Rat × Rat × Rat
  ColorTint : Rat × Rat × Rat × Rat
  ScalarParameters : List (String × Rat)
  VectorParameters : List (String × (Rat × Rat × Rat × Rat))
  TextureParameters : List (String × Bool)
  MaterialOverrides : List (Int × Bool)
deriving DecidableEq

structure FEnemyTemplateModification where
  StatMultipliers : List (String × Rat)
  ModifiedAbilities : List (String × FEnemyAbilityDefinition)
  AIModifications : FEnemyAIConfig
  VisualModifications : FEnemyVisualCustomization
  AdditionalTags : List String
deriving DecidableEq

structure FEnemyTemplateValidationResult where
  bIsValid : Bool
  ValidationErrors : List String
  ValidationWarnings : List String
deriving DecidableEq

/-- AddError: `ValidationErrors.Add(Error); bIsValid = false;` -/
def FEnemyTemplateValidationResult.AddError
    (r : FEnemyTemplateValidationResult) (e : String) : FEnemyTemplateValidationResult :=
  { r with ValidationErrors := r.ValidationErrors ++ [e], bIsValid := false }

/-- AddWarning: `ValidationWarnings.Add(Warning);` -/
def FEnemyTemplateValidationResult.AddWarning
    (r : FEnemyTemplateValidationResult) (w : String) : FEnemyTemplateValidationResult :=
  { r with ValidationWarnings := r.ValidationWarnings ++ [w] }

/-- Clear: `bIsValid = true; ValidationErrors.Empty(); ValidationWarnings.Empty();` -/
def FEnemyTemplateValidationResult.Clear
    (_r : FEnemyTemplateValidationResult) : FEnemyTemplateValidationResult :=
  { bIsValid := true, ValidationErrors := [], ValidationWarnings := [] }

/-- A default-constructed FEnemyTemplateValidationResult (bIsValid defaults to false). -/
def DefaultValidationResult : FEnemyTemplateValidationResult :=
  { bIsValid := false, ValidationErrors := [], ValidationWarnings := [] }

/-- A cleared result (what Clear produces). -/
def EmptyValidationResult : FEnemyTemplateValidationResult :=
  { bIsValid := true, ValidationErrors := [], ValidationWarnings := [] }

structure UEnemyTemplate where
  id : Nat
  TemplateName : String
  DisplayName : String
  Description : String
  ParentTemplate : Option Nat
  TemplateTags : List String
  BaseStats : FEnemyBaseStats
  AIConfig : FEnemyAIConfig
  VisualCustomization : FEnemyVisualCustomization
  Abilities : List FEnemyAbilityDefinition
deriving DecidableEq

/-- Heap lookup: dereference a template id against the store. -/
def FindTemplate (Store : List UEnemyTemplate) (i : Nat) : Option UEnemyTemplate :=
  Store.find? (fun t => decide (t.id = i))

/-- Resolve the ParentTemplate pointer of a template against the store. -/
def ResolveParent (Store : List UEnemyTemplate) (t : UEnemyTemplate) : Option UEnemyTemplate :=
  match t.ParentTemplate with
  | none => none
  | some pid => FindTemplate Store pid

/- Validation message texts (NSLOCTEXT payloads from the source). -/

def NoTemplateNameMsg : String := "Template name is required"

def NoDisplayNameMsg : String := "Display name is empty"

def InvalidParentTemplateMsg (ParentName : String) : String :=
  "Parent template " ++ ParentName ++ " is invalid"

def NoSkeletalMeshMsg : String := "Skeletal mesh is required"

def NoAnimBPMsg : String := "No animation blueprint specified"

def NoBehaviorTreeMsg : String := "Behavior tree is required"

def NoBlackboardMsg : String := "Blackboard is required"

def NoAbilityNameMsg (Index : Int) : String :=
  "Ability name is required for ability at index " ++ toString Index

def NoAbilityClassMsg (Name : String) : String :=
  "Ability class is required for ability " ++ Name

def NoBaseTemplateMsg : String := "No base template specified"

def InvalidBaseTemplateMsg : String := "Base template reference is invalid"

def InvalidStatMultiplierMsg (Value : Rat) (Key : String) : String :=
  "Invalid multiplier value " ++ toString Value ++ " for stat " ++ Key

def InvalidAbilityModificationMsg : String := "Invalid ability modification key"

def UnknownAbilityModificationMsg (Key : String) : String :=
  "Modification targets unknown ability " ++ Key

/-- UEnemyTemplate::ValidateVisualAssets (EnemyTemplate.cpp:161-177). -/
def UEnemyTemplate.ValidateVisualAssets (t : UEnemyTemplate)
    (OutResult : FEnemyTemplateValidationResult) : Bool × FEnemyTemplateValidationResult :=
  if t.VisualCustomization.SkeletalMesh = false then
    (false, OutResult.AddError NoSkeletalMeshMsg)
  else if t.VisualCustomization.AnimationBlueprint = false then
    (true, OutResult.AddWarning NoAnimBPMsg)
  else
    (true, OutResult)

/-- UEnemyTemplate::ValidateAIConfiguration (EnemyTemplate.cpp:179-196). -/
def UEnemyTemplate.ValidateAIConfiguration (t : UEnemyTemplate)
    (OutResult : FEnemyTemplateValidationResult) : Bool × FEnemyTemplateValidationResult :=
  if t.AIConfig.BehaviorTree = false then
    (false, OutResult.AddError NoBehaviorTreeMsg)
  else if t.AIConfig.Blackboard = false then
    (false, OutResult.AddError NoBlackboardMsg)
  else
    (true, OutResult)

/-- TArray::IndexOfByKey - first index of an equal element, INDEX_NONE = -1 when absent. -/
def IndexOfByKey (l : List FEnemyAbilityDefinition) (ab : FEnemyAbilityDefinition) : Int :=
  match l.findIdx? (fun x => decide (x = ab)) with
  | some i => (i : Int)
  | none => -1

/-- One iteration of the ability loop in UEnemyTemplate::ValidateAbilities
(EnemyTemplate.cpp:198-224): each failed check adds its own error and
clears the local bIsValid flag; the loop never exits early. -/
def ValidateAbilityStep (Abilities : List FEnemyAbilityDefinition)
    (acc : Bool × FEnemyTemplateValidationResult) (ab : FEnemyAbilityDefinition) :
    Bool × FEnemyTemplateValidationResult :=
  let acc1 :=
    if ab.AbilityName = "" then
      (false, acc.2.AddError (NoAbilityNameMsg (IndexOfByKey Abilities ab)))
    else acc
  if ab.AbilityClass = false then
    (false, acc1.2.AddError (NoAbilityClassMsg ab.AbilityName))
  else acc1

/-- UEnemyTemplate::ValidateAbilities (EnemyTemplate.cpp:198-224). -/
def UEnemyTemplate.ValidateAbilities (t : UEnemyTemplate)
    (OutResult : FEnemyTemplateValidationResult) : Bool × FEnemyTemplateValidationResult :=
  t.Abilities.foldl (ValidateAbilityStep t.Abilities) (true, OutResult)

/-- The identity checks at the top of UEnemyTemplate::ValidateTemplate
(EnemyTemplate.cpp:18-27): missing template name is an error, empty
display name a warning. -/
def IdentityChecks (t : UEnemyTemplate)
    (rc : FEnemyTemplateValidationResult) : FEnemyTemplateValidationResult :=
  let r1 := if t.TemplateName = "" then rc.AddError NoTemplateNameMsg else rc
  if t.DisplayName = "" then r1.AddWarning NoDisplayNameMsg else r1

/-- The invalid-parent handling in ValidateTemplate (EnemyTemplate.cpp:35-39):
AddError of the wrapping message, then the parent errors appended directly
to ValidationErrors. -/
def AppendParentErrors (r : FEnemyTemplateValidationResult) (ParentName : String)
    (ParentResult : FEnemyTemplateValidationResult) : FEnemyTemplateValidationResult :=
  let rw := r.AddError (InvalidParentTemplateMsg ParentName)
  { rw with ValidationErrors := rw.ValidationErrors ++ ParentResult.ValidationErrors }

/-- The tail of ValidateTemplate (EnemyTemplate.cpp:43-61): visual, AI and
ability checks, each returning false immediately on failure, then the final
`return OutResult.bIsValid`. -/
def TailChecks (t : UEnemyTemplate)
    (r : FEnemyTemplateValidationResult) : Bool × FEnemyTemplateValidationResult :=
  let v := t.ValidateVisualAssets r
  if v.1 = false then (false, v.2)
  else
    let a := t.ValidateAIConfiguration v.2
    if a.1 = false then (false, a.2)
    else
      let ab := t.ValidateAbilities a.2
      if ab.1 = false then (false, ab.2)
      else (ab.2.bIsValid, ab.2)

/-- UEnemyTemplate::ValidateTemplate (EnemyTemplate.cpp:14-62), with fuel for
the unguarded parent recursion. The parent result is a fresh
default-constructed FEnemyTemplateValidationResult, as in the source. -/
def ValidateTemplateFuel (Store : List UEnemyTemplate) :
    Nat → UEnemyTemplate → FEnemyTemplateValidationResult →
    Option (Bool × FEnemyTemplateValidationResult)
  | 0, _, _ => none
  | Fuel+1, t, OutResult0 =>
    let r2 := IdentityChecks t OutResult0.Clear
    match ResolveParent Store t with
    | none => some (TailChecks t r2)
    | some p =>
      match ValidateTemplateFuel Store Fuel p DefaultValidationResult with
      | none => none
      | some pres =>
        let r3 := if pres.1 = true then r2 else AppendParentErrors r2 p.TemplateName pres.2
        some (TailChecks t r3)

/-- The first half of ValidateTemplate (EnemyTemplate.cpp:16-41): the
cleared result after the identity checks and the parent validation, i.e.
the accumulated result at the moment ValidateVisualAssets is about to run
(none when the parent recursion does not bottom out within the fuel). -/
def PreVisualStage (Store : List UEnemyTemplate) :
    Nat → UEnemyTemplate → Option FEnemyTemplateValidationResult
  | 0, _ => none
  | Fuel+1, t =>
    let r2 := IdentityChecks t EmptyValidationResult
    match ResolveParent Store t with
    | none => some r2
    | some p =>
      match ValidateTemplateFuel Store Fuel p DefaultValidationResult with
      | none => none
      | some pres =>
        some (if pres.1 = true then r2 else AppendParentErrors r2 p.TemplateName pres.2)

/- Inheritance chain (EnemyTemplate.cpp:136-159). The loop walks parent
pointers, appending each visited template and breaking as soon as the next
template is already in the accumulated chain. Templates are identified by
their heap ids; fuel bounds the loop and is shown sufficient below. -/

def CandidateIds (Store : List UEnemyTemplate) : List Nat :=
  Store.map (fun t => t.id)

/-- Read Current->ParentTemplate through the store. -/
def ParentIdOf (Store : List UEnemyTemplate) (i : Nat) : Option Nat :=
  match FindTemplate Store i with
  | none => none
  | some t => t.ParentTemplate

def GetInheritanceChainAux (Store : List UEnemyTemplate) :
    Nat → List Nat → Option Nat → List Nat
  | _, Chain, none => Chain
  | 0, Chain, some _ => Chain
  | Fuel+1, Chain, some Cur =>
    let Chain1 := Chain ++ [Cur]
    match ParentIdOf Store Cur with
    | none => Chain1
    | some Next =>
      if Next ∈ Chain1 then Chain1
      else GetInheritanceChainAux Store Fuel Chain1 (some Next)

/-- UEnemyTemplate::GetInheritanceChain (EnemyTemplate.cpp:136-159) as the
chain of template ids, computed with fuel Store.length + 2. -/
def UEnemyTemplate.GetInheritanceChain (Store : List UEnemyTemplate)
    (t : UEnemyTemplate) : List Nat :=
  GetInheritanceChainAux Store (Store.length + 2) [] (some t.id)

/- Configuration validation (EnemyConfiguration.cpp:47-117). -/

/-- Observable interface of the TSoftObjectPtr BaseTemplate reference:
IsValid() and Get() (the latter via the store). -/
structure TSoftTemplateRef where
  IsValid : Bool
  Target : Option Nat
deriving DecidableEq

structure UEnemyConfiguration where
  BaseTemplate : TSoftTemplateRef
  Modifications : FEnemyTemplateModification
deriving DecidableEq

/-- BaseTemplate.Get(), resolved against the store. -/
def ResolveRef (Store : List UEnemyTemplate) (ref : TSoftTemplateRef) :
    Option UEnemyTemplate :=
  match ref.Target with
  | none => none
  | some i => FindTemplate Store i

/-- The stat-multiplier loop of ValidateConfiguration
(EnemyConfiguration.cpp:72-84): returns false at the first entry whose
value is <= 0. -/
def ValidateStatMultipliersLoop :
    List (String × Rat) → FEnemyTemplateValidationResult →
    Bool × FEnemyTemplateValidationResult
  | [], r => (true, r)
  | (k, v) :: rest, r =>
    if v ≤ 0 then (false, r.AddError (InvalidStatMultiplierMsg v k))
    else ValidateStatMultipliersLoop rest r

/-- The modified-abilities loop of ValidateConfiguration
(EnemyConfiguration.cpp:86-114): returns false at the first key that is
None or that matches no template ability. -/
def ValidateModifiedAbilitiesLoop (TemplateAbilities : List FEnemyAbilityDefinition) :
    List (String × FEnemyAbilityDefinition) → FEnemyTemplateValidationResult →
    Bool × FEnemyTemplateValidationResult
  | [], r => (true, r)
  | (k, _) :: rest, r =>
    if k = "" then (false, r.AddError InvalidAbilityModificationMsg)
    else if (TemplateAbilities.any (fun ta => decide (ta.AbilityName = k))) = false then
      (false, r.AddError (UnknownAbilityModificationMsg k))
    else ValidateModifiedAbilitiesLoop TemplateAbilities rest r

/-- UEnemyConfiguration::ValidateConfiguration (EnemyConfiguration.cpp:47-117). -/
def UEnemyConfiguration.ValidateConfiguration (Store : List UEnemyTemplate)
    (Fuel : Nat) (cfg : UEnemyConfiguration) (OutResult0 : FEnemyTemplateValidationResult) :
    Option (Bool × FEnemyTemplateValidationResult) :=
  let r := OutResult0.Clear
  if cfg.BaseTemplate.IsValid = false then
    some (false, r.AddError NoBaseTemplateMsg)
  else
    match ResolveRef Store cfg.BaseTemplate with
    | none => some (false, r.AddError InvalidBaseTemplateMsg)
    | some t =>
      match ValidateTemplateFuel Store Fuel t r with
      | none => none
      | some tres =>
        if tres.1 = false then some (false, tres.2)
        else
          let s := ValidateStatMultipliersLoop cfg.Modifications.StatMultipliers tres.2
          if s.1 = false then some (false, s.2)
          else
            let a := ValidateModifiedAbilitiesLoop t.Abilities
              cfg.Modifications.ModifiedAbilities s.2
            if a.1 = false then some (false, a.2)
            else some (true, a.2)

/- ApplyToInstance (EnemyTemplate.cpp:64-119): the effective stats, visuals,
AI config and ability list computed before being pushed onto the instance. -/

/-- Modelled from the spec: GetStatValuePtr is called by ApplyToInstance
(EnemyTemplate.cpp:77) but is not defined anywhere under src/. The spec
describes it as a resolver lookup by name against the fixed stat field set
of FEnemyBaseStats, unknown keys resolving to nothing; applying a
multiplier through it multiplies exactly the named field. -/
def ApplyStatMultiplier (s : FEnemyBaseStats) (Key : String) (Mult : Rat) :
    FEnemyBaseStats :=
  if Key = "Health" then { s with Health := s.Health * Mult }
  else if Key = "Damage" then { s with Damage := s.Damage * Mult }
  else if Key = "Speed" then { s with Speed := s.Speed * Mult }
  else if Key = "AttackSpeed" then { s with AttackSpeed := s.AttackSpeed * Mult }
  else if Key = "Defense" then { s with Defense := s.Defense * Mult }
  else if Key = "CriticalChance" then { s with CriticalChance := s.CriticalChance * Mult }
  else if Key = "CriticalMultiplier" then { s with CriticalMultiplier := s.CriticalMultiplier * Mult }
  else s

def FixedStatKeys : List String :=
  ["Health", "Damage", "Speed", "AttackSpeed", "Defense",
   "CriticalChance", "CriticalMultiplier"]

/-- Projection of a named stat field (0 for unknown keys), used to state
per-field properties of the stat merge. -/
def StatField (Key : String) (s : FEnemyBaseStats) : Rat :=
  if Key = "Health" then s.Health
  else if Key = "Damage" then s.Damage
  else if Key = "Speed" then s.Speed
  else if Key = "AttackSpeed" then s.AttackSpeed
  else if Key = "Defense" then s.Defense
  else if Key = "CriticalChance" then s.CriticalChance
  else if Key = "CriticalMultiplier" then s.CriticalMultiplier
  else 0

/-- FinalStats of ApplyToInstance (EnemyTemplate.cpp:71-83). -/
def UEnemyTemplate.FinalStats (t : UEnemyTemplate)
    (Mod : Option FEnemyTemplateModification) : FEnemyBaseStats :=
  match Mod with
  | none => t.BaseStats
  | some m => m.StatMultipliers.foldl (fun s e => ApplyStatMultiplier s e.1 e.2) t.BaseStats

/-- FinalVisuals of ApplyToInstance (EnemyTemplate.cpp:85-91). -/
def UEnemyTemplate.FinalVisuals (t : UEnemyTemplate)
    (Mod : Option FEnemyTemplateModification) : FEnemyVisualCustomization :=
  match Mod with
  | none => t.VisualCustomization
  | some m => m.VisualModifications

/-- FinalAIConfig of ApplyToInstance (EnemyTemplate.cpp:93-99). -/
def UEnemyTemplate.FinalAIConfig (t : UEnemyTemplate)
    (Mod : Option FEnemyTemplateModification) : FEnemyAIConfig :=
  match Mod with
  | none => t.AIConfig
  | some m => m.AIModifications

/-- TMap Contains plus operator lookup on ModifiedAbilities, as one
association-list lookup. -/
def MapFindAbility (m : List (String × FEnemyAbilityDefinition)) (k : String) :
    Option FEnemyAbilityDefinition :=
  match m.find? (fun e => decide (e.1 = k)) with
  | none => none
  | some e => some e.2

/-- The ability list applied by ApplyToInstance (EnemyTemplate.cpp:101-116):
template order, each ability substituted by its override when the
modification map contains its name. -/
def UEnemyTemplate.FinalAbilities (t : UEnemyTemplate)
    (Mod : Option FEnemyTemplateModification) : List FEnemyAbilityDefinition :=
  t.Abilities.map (fun ab =>
    match Mod with
    | none => ab
    | some m =>
      match MapFindAbility m.ModifiedAbilities ab.AbilityName with
      | some ov => ov
      | none => ab)

/-- Invariant of FEnemyTemplateValidationResult: bIsValid is false exactly
when the error list is non-empty. -/
def ResultInv (r : FEnemyTemplateValidationResult) : Prop :=
  r.bIsValid = false ↔ r.ValidationErrors ≠ []

/-- A modified-ability key passes the loop checks when it is non-empty and
names an ability of the template. -/
def GoodAbilityKey (A : List FEnemyAbilityDefinition) (k : String) : Prop :=
  k ≠ "" ∧ (A.any (fun ta => decide (ta.AbilityName = k))) = true

instance GoodAbilityKeyDec (A : List FEnemyAbilityDefinition) (k : String) :
    Decidable (GoodAbilityKey A k) := by
  unfold GoodAbilityKey
  exact inferInstance

/-- Iterated parent resolution: the parent chain of a template reaches a
root in n steps when IterParent returns none. -/
def IterParent (Store : List UEnemyTemplate) :
    Nat → Option UEnemyTemplate → Option UEnemyTemplate
  | 0, x => x
  | _+1, none => none
  | n+1, some t => IterParent Store n (ResolveParent Store t)

/- Concrete records used by witnesses and counterexamples. -/

def GoodAI : FEnemyAIConfig :=
  { BehaviorTree := true, Blackboard := true, AggressionLevel := RatHalf,
    PreferredRange := 300, bUseCover := false, bCoordinateWithAllies := false,
    BehaviorParameters := [], PersonalityTags := [] }

def GoodVisual : FEnemyVisualCustomization :=
  { SkeletalMesh := true, AnimationBlueprint := true,
    Scale := (1, 1, 1), ColorTint := (1, 1, 1, 1), ScalarParameters := [],
    VectorParameters := [], TextureParameters := [], MaterialOverrides := [] }

def NoMeshVisual : FEnemyVisualCustomization :=
  { SkeletalMesh := false, AnimationBlueprint := true,
    Scale := (1, 1, 1), ColorTint := (1, 1, 1, 1), ScalarParameters := [],
    VectorParameters := [], TextureParameters := [], MaterialOverrides := [] }

def BasicAttackDef : FEnemyAbilityDefinition :=
  { AbilityName := "BasicAttack", DisplayName := "Basic Attack",
    Description := "", AbilityTags := [], CooldownTime := 1, Range := 200,
    Cost := 0, bIsPassive := false, AbilityClass := true, AbilityMontage := true,
    AbilityEffects := [] }

def FireballDef : FEnemyAbilityDefinition :=
  { AbilityName := "Fireball", DisplayName := "Fireball",
    Description := "", AbilityTags := [], CooldownTime := 3, Range := 600,
    Cost := 10, bIsPassive := false, AbilityClass := true, AbilityMontage := true,
    AbilityEffects := [] }

/-- A fully valid template with one ability, used as the base of several
concrete configurations. -/
def TGood : UEnemyTemplate :=
  { id := 7, TemplateName := "Goblin", DisplayName := "Goblin", Description := "",
    ParentTemplate := none, TemplateTags := [],
    BaseStats := DefaultBaseStats, AIConfig := GoodAI,
    VisualCustomization := GoodVisual, Abilities := [BasicAttackDef] }

def Store1 : List UEnemyTemplate := [TGood]

def EmptyMod : FEnemyTemplateModification :=
  { StatMultipliers := [], ModifiedAbilities := [], AIModifications := GoodAI,
    VisualModifications := GoodVisual, AdditionalTags := [] }

def DamageDoubleMod : FEnemyTemplateModification :=
  { EmptyMod with StatMultipliers := [("Damage", 2)] }

def DamageNegMod : FEnemyTemplateModification :=
  { EmptyMod with StatMultipliers := [("Damage", -2)] }

/-- Two invalid stat multipliers at once. -/
def CfgTwoBad : UEnemyConfiguration :=
  { BaseTemplate := { IsValid := true, Target := some 7 },
    Modifications := { EmptyMod with StatMultipliers := [("Health", 0), ("Damage", -1)] } }

/-- A modification keyed by an ability the template does not have. -/
def CfgFireball : UEnemyConfiguration :=
  { BaseTemplate := { IsValid := true, Target := some 7 },
    Modifications := { EmptyMod with ModifiedAbilities := [("Fireball", FireballDef)] } }

def CfgNoBase : UEnemyConfiguration :=
  { BaseTemplate := { IsValid := false, Target := none }, Modifications := EmptyMod }

def CfgDangling : UEnemyConfiguration :=
  { BaseTemplate := { IsValid := true, Target := some 99 }, Modifications := EmptyMod }

/-- Missing template name and missing skeletal mesh at the same time. -/
def TNoNameNoMesh : UEnemyTemplate :=
  { id := 3, TemplateName := "", DisplayName := "X", Description := "",
    ParentTemplate := none, TemplateTags := [],
    BaseStats := DefaultBaseStats, AIConfig := GoodAI,
    VisualCustomization := NoMeshVisual, Abilities := [] }

/-- A template with a parent (TGood) but no skeletal mesh. -/
def TParentedNoMesh : UEnemyTemplate :=
  { id := 4, TemplateName := "MeshlessChild", DisplayName := "Meshless Child",
    Description := "", ParentTemplate := some 7, TemplateTags := [],
    BaseStats := DefaultBaseStats, AIConfig := GoodAI,
    VisualCustomization := NoMeshVisual, Abilities := [] }

/-- Two templates whose parent references form a cycle. -/
def CycT1 : UEnemyTemplate :=
  { id := 1, TemplateName := "CycA", DisplayName := "CycA", Description := "",
    ParentTemplate := some 2, TemplateTags := [],
    BaseStats := DefaultBaseStats, AIConfig := GoodAI,
    VisualCustomization := GoodVisual, Abilities := [] }

def CycT2 : UEnemyTemplate :=
  { id := 2, TemplateName := "CycB", DisplayName := "CycB", Description := "",
    ParentTemplate := some 1, TemplateTags := [],
    BaseStats := DefaultBaseStats, AIConfig := GoodAI,
    VisualCustomization := GoodVisual, Abilities := [] }

def CycStore : List UEnemyTemplate := [CycT1, CycT2]

/- Result records produced at the concrete inputs above. -/

def NoBaseResult : FEnemyTemplateValidationResult :=
  { bIsValid := false, ValidationErrors := [NoBaseTemplateMsg], ValidationWarnings := [] }

def InvalidBaseResult : FEnemyTemplateValidationResult :=
  { bIsValid := false, ValidationErrors := [InvalidBaseTemplateMsg], ValidationWarnings := [] }

def TwoBadFirstErrorResult : FEnemyTemplateValidationResult :=
  { bIsValid := false, ValidationErrors := [InvalidStatMultiplierMsg 0 "Health"],
    ValidationWarnings := [] }

def FireballErrorResult : FEnemyTemplateValidationResult :=
  { bIsValid := false, ValidationErrors := [UnknownAbilityModificationMsg "Fireball"],
    ValidationWarnings := [] }

def NoNameNoMeshResult : FEnemyTemplateValidationResult :=
  { bIsValid := false, ValidationErrors := [NoTemplateNameMsg, NoSkeletalMeshMsg],
    ValidationWarnings := [] }

/- Helper lemmas: the validity flag tracks the error list. -/

lemma ResultInv_empty : ResultInv EmptyValidationResult := by
  simp [ResultInv, EmptyValidationResult]

lemma ResultInv_clear (r : FEnemyTemplateValidationResult) : ResultInv r.Clear := by
  simp [ResultInv, FEnemyTemplateValidationResult.Clear]

lemma ResultInv_addError (r : FEnemyTemplateValidationResult) (e : String) :
    ResultInv (r.AddError e) := by
  simp [ResultInv, FEnemyTemplateValidationResult.AddError]

lemma ResultInv_addWarning (r : FEnemyTemplateValidationResult) (w : String)
    (h : ResultInv r) : ResultInv (r.AddWarning w) := by
  simpa [ResultInv, FEnemyTemplateValidationResult.AddWarning] using h

lemma ResultInv_appendParent (r : FEnemyTemplateValidationResult) (n : String)
    (pr : FEnemyTemplateValidationResult) : ResultInv (AppendParentErrors r n pr) := by
  simp [ResultInv, AppendParentErrors, FEnemyTemplateValidationResult.AddError]

lemma ResultInv_identity (t : UEnemyTemplate) (rc : FEnemyTemplateValidationResult)
    (h : ResultInv rc) : ResultInv (IdentityChecks t rc) := by
  unfold IdentityChecks
  split_ifs with h1 h2 h3
  · exact ResultInv_addWarning _ _ (ResultInv_addError _ _)
  · exact ResultInv_addError _ _
  · exact ResultInv_addWarning _ _ h
  · exact h

lemma VVA_false (t : UEnemyTemplate) (r : FEnemyTemplateValidationResult)
    (h : (t.ValidateVisualAssets r).1 = false) :
    (t.ValidateVisualAssets r).2 = r.AddError NoSkeletalMeshMsg := by
  unfold UEnemyTemplate.ValidateVisualAssets at h ⊢
  split_ifs at h ⊢
  rfl

lemma VVA_true (t : UEnemyTemplate) (r : FEnemyTemplateValidationResult)
    (h : (t.ValidateVisualAssets r).1 = true) :
    (t.ValidateVisualAssets r).2.bIsValid = r.bIsValid ∧
    (t.ValidateVisualAssets r).2.ValidationErrors = r.ValidationErrors := by
  unfold UEnemyTemplate.ValidateVisualAssets at h ⊢
  split_ifs at h ⊢
  all_goals simp_all [FEnemyTemplateValidationResult.AddWarning]

lemma VAI_false (t : UEnemyTemplate) (r : FEnemyTemplateValidationResult)
    (h : (t.ValidateAIConfiguration r).1 = false) :
    ∃ e, (t.ValidateAIConfiguration r).2 = r.AddError e := by
  unfold UEnemyTemplate.ValidateAIConfiguration at h ⊢
  split_ifs at h ⊢
  · exact ⟨NoBehaviorTreeMsg, rfl⟩
  · exact ⟨NoBlackboardMsg, rfl⟩

lemma VAI_true (t : UEnemyTemplate) (r : FEnemyTemplateValidationResult)
    (h : (t.ValidateAIConfiguration r).1 = true) :
    (t.ValidateAIConfiguration r).2 = r := by
  unfold UEnemyTemplate.ValidateAIConfiguration at h ⊢
  split_ifs at h ⊢
  all_goals simp_all

lemma abilityStep_inv (A : List FEnemyAbilityDefinition)
    (acc : Bool × FEnemyTemplateValidationResult) (ab : FEnemyAbilityDefinition)
    (h1 : ResultInv acc.2) (h2 : acc.1 = false → acc.2.bIsValid = false) :
    ResultInv (ValidateAbilityStep A acc ab).2 ∧
    ((ValidateAbilityStep A acc ab).1 = false → (ValidateAbilityStep A acc ab).2.bIsValid = false) := by
  unfold ValidateAbilityStep
  split_ifs <;>
    simp_all [ResultInv, FEnemyTemplateValidationResult.AddError]

lemma abilityFold_inv (A : List FEnemyAbilityDefinition) :
    ∀ (l : List FEnemyAbilityDefinition) (acc : Bool × FEnemyTemplateValidationResult),
    ResultInv acc.2 → (acc.1 = false → acc.2.bIsValid = false) →
    ResultInv (l.foldl (ValidateAbilityStep A) acc).2 ∧
    ((l.foldl (ValidateAbilityStep A) acc).1 = false →
      (l.foldl (ValidateAbilityStep A) acc).2.bIsValid = false)
  | [], acc, h1, h2 => ⟨h1, h2⟩
  | ab :: l, acc, h1, h2 => by
    have h := abilityStep_inv A acc ab h1 h2
    exact abilityFold_inv A l _ h.1 h.2

lemma abilityStep_false (A : List FEnemyAbilityDefinition)
    (acc : Bool × FEnemyTemplateValidationResult) (ab : FEnemyAbilityDefinition)
    (h : acc.1 = false) : (ValidateAbilityStep A acc ab).1 = false := by
  unfold ValidateAbilityStep
  split_ifs <;> simp_all

lemma abilityFold_false (A : List FEnemyAbilityDefinition) :
    ∀ (l : List FEnemyAbilityDefinition) (acc : Bool × FEnemyTemplateValidationResult),
    acc.1 = false → (l.foldl (ValidateAbilityStep A) acc).1 = false
  | [], _, h => h
  | ab :: l, acc, h => abilityFold_false A l _ (abilityStep_false A acc ab h)

lemma abilityStep_true (A : List FEnemyAbilityDefinition)
    (acc : Bool × FEnemyTemplateValidationResult) (ab : FEnemyAbilityDefinition)
    (h : (ValidateAbilityStep A acc ab).1 = true) : ValidateAbilityStep A acc ab = acc := by
  unfold ValidateAbilityStep at h ⊢
  split_ifs at h ⊢ <;> simp_all

lemma abilityFold_true (A : List FEnemyAbilityDefinition) :
    ∀ (l : List FEnemyAbilityDefinition) (acc : Bool × FEnemyTemplateValidationResult),
    (l.foldl (ValidateAbilityStep A) acc).1 = true → l.foldl (ValidateAbilityStep A) acc = acc
  | [], _, _ => rfl
  | ab :: l, acc, h => by
    simp only [List.foldl_cons] at h ⊢
    by_cases hs : (ValidateAbilityStep A acc ab).1 = false
    · have := abilityFold_false A l _ hs
      rw [this] at h
      exact absurd h (by simp)
    · have hs' : (ValidateAbilityStep A acc ab).1 = true := by
        cases hb : (ValidateAbilityStep A acc ab).1
        · exact absurd hb hs
        · rfl
      rw [abilityStep_true A acc ab hs'] at h ⊢
      exact abilityFold_true A l acc h

lemma TailChecks_inv (t : UEnemyTemplate) (r : FEnemyTemplateValidationResult)
    (h : ResultInv r) :
    (TailChecks t r).1 = (TailChecks t r).2.bIsValid ∧ ResultInv (TailChecks t r).2 := by
  unfold TailChecks
  by_cases hv : (t.ValidateVisualAssets r).1 = false
  · rw [if_pos hv]
    rw [VVA_false t r hv]
    exact ⟨by simp [FEnemyTemplateValidationResult.AddError], ResultInv_addError _ _⟩
  · rw [if_neg hv]
    have hv' : (t.ValidateVisualAssets r).1 = true := by
      cases hb : (t.ValidateVisualAssets r).1
      · exact absurd hb hv
      · rfl
    have hva := VVA_true t r hv'
    have hinv2 : ResultInv (t.ValidateVisualAssets r).2 := by
      unfold ResultInv at h ⊢
      rw [hva.1, hva.2]
      exact h
    by_cases ha : (t.ValidateAIConfiguration (t.ValidateVisualAssets r).2).1 = false
    · rw [if_pos ha]
      obtain ⟨e, he⟩ := VAI_false t _ ha
      rw [he]
      exact ⟨by simp [FEnemyTemplateValidationResult.AddError], ResultInv_addError _ _⟩
    · rw [if_neg ha]
      have ha' : (t.ValidateAIConfiguration (t.ValidateVisualAssets r).2).1 = true := by
        cases hb : (t.ValidateAIConfiguration (t.ValidateVisualAssets r).2).1
        · exact absurd hb ha
        · rfl
      rw [VAI_true t _ ha']
      have hfold := abilityFold_inv (t.Abilities) t.Abilities
        (true, (t.ValidateVisualAssets r).2) hinv2 (by simp)
      by_cases hb : (t.ValidateAbilities (t.ValidateVisualAssets r).2).1 = false
      · rw [if_pos hb]
        unfold UEnemyTemplate.ValidateAbilities at hb ⊢
        exact ⟨(hfold.2 hb).symm, hfold.1⟩
      · rw [if_neg hb]
        unfold UEnemyTemplate.ValidateAbilities at hb ⊢
        exact ⟨rfl, hfold.1⟩

lemma Clear_eq_empty (r : FEnemyTemplateValidationResult) :
    r.Clear = EmptyValidationResult := rfl

/-- Core of claim C7: ValidateTemplate clears the in-out result first, so
the prior contents of the result never influence the outcome. -/
lemma VT_ignores_seed (Store : List UEnemyTemplate) (Fuel : Nat) (t : UEnemyTemplate)
    (r1 r2 : FEnemyTemplateValidationResult) :
    ValidateTemplateFuel Store Fuel t r1 = ValidateTemplateFuel Store Fuel t r2 := by
  cases Fuel <;> rfl

/-- The return value of ValidateTemplate equals the result's bIsValid, and
bIsValid tracks non-emptiness of the error list. -/
lemma VT_sound (Store : List UEnemyTemplate) (Fuel : Nat) (t : UEnemyTemplate)
    (r0 : FEnemyTemplateValidationResult) (b : Bool) (r : FEnemyTemplateValidationResult)
    (h : ValidateTemplateFuel Store Fuel t r0 = some (b, r)) :
    b = r.bIsValid ∧ ResultInv r := by
  cases Fuel with
  | zero => simp [ValidateTemplateFuel] at h
  | succ f =>
    have hinv2 : ResultInv (IdentityChecks t r0.Clear) :=
      ResultInv_identity t _ (ResultInv_clear r0)
    rw [ValidateTemplateFuel] at h
    rcases hp : ResolveParent Store t with _ | p
    · simp only [hp, Option.some.injEq] at h
      have h2 := TailChecks_inv t (IdentityChecks t r0.Clear) hinv2
      rw [h] at h2
      exact ⟨h2.1, h2.2⟩
    · simp only [hp] at h
      rcases hrec : ValidateTemplateFuel Store f p DefaultValidationResult with _ | pres
      · simp [hrec] at h
      · simp only [hrec] at h
        by_cases hpb : pres.1 = true
        · rw [if_pos hpb] at h
          simp only [Option.some.injEq] at h
          have h2 := TailChecks_inv t (IdentityChecks t r0.Clear) hinv2
          rw [h] at h2
          exact ⟨h2.1, h2.2⟩
        · rw [if_neg hpb] at h
          simp only [Option.some.injEq] at h
          have h2 := TailChecks_inv t
            (AppendParentErrors (IdentityChecks t r0.Clear) p.TemplateName pres.2)
            (ResultInv_appendParent _ _ _)
          rw [h] at h2
          exact ⟨h2.1, h2.2⟩

lemma StatLoop_true :
    ∀ (l : List (String × Rat)) (r : FEnemyTemplateValidationResult),
    (ValidateStatMultipliersLoop l r).1 = true → (ValidateStatMultipliersLoop l r).2 = r
  | [], _, _ => rfl
  | (k, v) :: rest, r, h => by
    unfold ValidateStatMultipliersLoop at h ⊢
    split_ifs at h ⊢ with hv
    exact StatLoop_true rest r h

lemma StatLoop_false :
    ∀ (l : List (String × Rat)) (r : FEnemyTemplateValidationResult),
    (ValidateStatMultipliersLoop l r).1 = false →
    ∃ e, (ValidateStatMultipliersLoop l r).2 = r.AddError e
  | [], _, h => by simp [ValidateStatMultipliersLoop] at h
  | (k, v) :: rest, r, h => by
    unfold ValidateStatMultipliersLoop at h ⊢
    split_ifs at h ⊢ with hv
    · exact ⟨InvalidStatMultiplierMsg v k, rfl⟩
    · exact StatLoop_false rest r h

lemma AbLoop_true (A : List FEnemyAbilityDefinition) :
    ∀ (l : List (String × FEnemyAbilityDefinition)) (r : FEnemyTemplateValidationResult),
    (ValidateModifiedAbilitiesLoop A l r).1 = true → (ValidateModifiedAbilitiesLoop A l r).2 = r
  | [], _, _ => rfl
  | (k, ab) :: rest, r, h => by
    unfold ValidateModifiedAbilitiesLoop at h ⊢
    split_ifs at h ⊢
    exact AbLoop_true A rest r h

lemma AbLoop_false (A : List FEnemyAbilityDefinition) :
    ∀ (l : List (String × FEnemyAbilityDefinition)) (r : FEnemyTemplateValidationResult),
    (ValidateModifiedAbilitiesLoop A l r).1 = false →
    ∃ e, (ValidateModifiedAbilitiesLoop A l r).2 = r.AddError e
  | [], _, h => by simp [ValidateModifiedAbilitiesLoop] at h
  | (k, ab) :: rest, r, h => by
    unfold ValidateModifiedAbilitiesLoop at h ⊢
    split_ifs at h ⊢
    · exact ⟨InvalidAbilityModificationMsg, rfl⟩
    · exact ⟨UnknownAbilityModificationMsg k, rfl⟩
    · exact AbLoop_false A rest r h

/-- The return value of ValidateConfiguration equals the result's bIsValid,
and bIsValid tracks non-emptiness of the error list. -/
lemma VC_sound (Store : List UEnemyTemplate) (Fuel : Nat) (cfg : UEnemyConfiguration)
    (r0 : FEnemyTemplateValidationResult) (b : Bool) (r : FEnemyTemplateValidationResult)
    (h : cfg.ValidateConfiguration Store Fuel r0 = some (b, r)) :
    b = r.bIsValid ∧ ResultInv r := by
  unfold UEnemyConfiguration.ValidateConfiguration at h
  by_cases hv : cfg.BaseTemplate.IsValid = false
  · rw [if_pos hv] at h
    simp only [Option.some.injEq, Prod.mk.injEq] at h
    rw [← h.1, ← h.2]
    exact ⟨rfl, ResultInv_addError _ _⟩
  · rw [if_neg hv] at h
    rcases href : ResolveRef Store cfg.BaseTemplate with _ | t
    · simp only [href, Option.some.injEq, Prod.mk.injEq] at h
      rw [← h.1, ← h.2]
      exact ⟨rfl, ResultInv_addError _ _⟩
    · simp only [href] at h
      rcases hvt : ValidateTemplateFuel Store Fuel t r0.Clear with _ | tres
      · simp [hvt] at h
      · simp only [hvt] at h
        have htres := VT_sound Store Fuel t r0.Clear tres.1 tres.2 (by rw [hvt])
        by_cases htb : tres.1 = false
        · rw [if_pos htb] at h
          simp only [Option.some.injEq, Prod.mk.injEq] at h
          rw [← h.1, ← h.2]
          exact ⟨by rw [htb] at htres; exact htres.1, htres.2⟩
        · rw [if_neg htb] at h
          by_cases hs : (ValidateStatMultipliersLoop cfg.Modifications.StatMultipliers tres.2).1 = false
          · rw [if_pos hs] at h
            simp only [Option.some.injEq, Prod.mk.injEq] at h
            obtain ⟨e, he⟩ := StatLoop_false _ _ hs
            rw [← h.1, ← h.2, he]
            exact ⟨rfl, ResultInv_addError _ _⟩
          · rw [if_neg hs] at h
            have hs2 : (ValidateStatMultipliersLoop cfg.Modifications.StatMultipliers tres.2).1 = true := by
              cases hb : (ValidateStatMultipliersLoop cfg.Modifications.StatMultipliers tres.2).1
              · exact absurd hb hs
              · rfl
            rw [StatLoop_true _ _ hs2] at h
            by_cases ha : (ValidateModifiedAbilitiesLoop t.Abilities cfg.Modifications.ModifiedAbilities tres.2).1 = false
            · rw [if_pos ha] at h
              simp only [Option.some.injEq, Prod.mk.injEq] at h
              obtain ⟨e, he⟩ := AbLoop_false _ _ _ ha
              rw [← h.1, ← h.2, he]
              exact ⟨rfl, ResultInv_addError _ _⟩
            · rw [if_neg ha] at h
              have ha2 : (ValidateModifiedAbilitiesLoop t.Abilities cfg.Modifications.ModifiedAbilities tres.2).1 = true := by
                cases hb : (ValidateModifiedAbilitiesLoop t.Abilities cfg.Modifications.ModifiedAbilities tres.2).1
                · exact absurd hb ha
                · rfl
              rw [AbLoop_true _ _ _ ha2] at h
              simp only [Option.some.injEq, Prod.mk.injEq] at h
              rw [← h.1, ← h.2]
              have hb1 : tres.1 = true := by
                cases hb : tres.1
                · exact absurd hb htb
                · rfl
              exact ⟨by rw [hb1] at htres; exact htres.1, htres.2⟩

/- Helper lemmas for the inheritance chain. -/

lemma FindTemplate_mem :
    ∀ (Store : List UEnemyTemplate) (i : Nat) (tc : UEnemyTemplate),
    FindTemplate Store i = some tc → i ∈ CandidateIds Store
  | [], i, tc, h => by simp [FindTemplate, List.find?] at h
  | x :: xs, i, tc, h => by
    unfold FindTemplate at h
    rw [List.find?] at h
    cases hx : decide (x.id = i) with
    | true =>
      have : x.id = i := of_decide_eq_true hx
      simp [CandidateIds, this]
    | false =>
      rw [hx] at h
      simp only [cond_false] at h
      have := FindTemplate_mem xs i tc h
      simp only [CandidateIds, List.map_cons, List.mem_cons]
      right
      simpa [CandidateIds] using this

lemma filter_length_le_mono (l : List Nat) (p q : Nat → Bool)
    (h : ∀ a, p a = true → q a = true) :
    (l.filter p).length ≤ (l.filter q).length := by
  induction l with
  | nil => simp
  | cons x xs ih =>
    rw [List.filter_cons, List.filter_cons]
    by_cases hp : p x = true
    · rw [if_pos hp, if_pos (h x hp), List.length_cons, List.length_cons]
      exact Nat.succ_le_succ ih
    · rw [if_neg hp]
      by_cases hq : q x = true
      · rw [if_pos hq, List.length_cons]
        exact Nat.le_succ_of_le ih
      · rw [if_neg hq]
        exact ih

lemma filter_length_lt (l : List Nat) (p q : Nat → Bool)
    (h : ∀ a, p a = true → q a = true) (Cur : Nat)
    (hl : Cur ∈ l) (hp : p Cur = false) (hq : q Cur = true) :
    (l.filter p).length < (l.filter q).length := by
  induction l with
  | nil => simp at hl
  | cons x xs ih =>
    rw [List.filter_cons, List.filter_cons]
    by_cases hx : x = Cur
    · subst hx
      rw [if_neg (by simp [hp]), if_pos hq, List.length_cons]
      exact Nat.lt_succ_of_le (filter_length_le_mono xs p q h)
    · have hl2 : Cur ∈ xs := by
        rcases List.mem_cons.mp hl with h0 | h0
        · exact absurd h0.symm hx
        · exact h0
      by_cases hpx : p x = true
      · rw [if_pos hpx, if_pos (h x hpx), List.length_cons, List.length_cons]
        exact Nat.succ_lt_succ (ih hl2)
      · rw [if_neg hpx]
        by_cases hqx : q x = true
        · rw [if_pos hqx, List.length_cons]
          exact Nat.lt_succ_of_lt (ih hl2)
        · rw [if_neg hqx]
          exact ih hl2

lemma chainAux_extends (Store : List UEnemyTemplate) :
    ∀ (Fuel : Nat) (Chain : List Nat) (Cur : Option Nat),
    ∃ s, GetInheritanceChainAux Store Fuel Chain Cur = Chain ++ s := by
  intro Fuel
  induction Fuel with
  | zero =>
    intro Chain Cur
    cases Cur <;> exact ⟨[], by simp [GetInheritanceChainAux]⟩
  | succ f ih =>
    intro Chain Cur
    cases Cur with
    | none => exact ⟨[], by simp [GetInheritanceChainAux]⟩
    | some c =>
      rw [GetInheritanceChainAux]
      rcases hp : ParentIdOf Store c with _ | nxt
      · exact ⟨[c], rfl⟩
      · show ∃ s, (if nxt ∈ Chain ++ [c] then Chain ++ [c]
            else GetInheritanceChainAux Store f (Chain ++ [c]) (some nxt)) = Chain ++ s
        by_cases hm : nxt ∈ Chain ++ [c]
        · rw [if_pos hm]
          exact ⟨[c], rfl⟩
        · rw [if_neg hm]
          obtain ⟨s, hs⟩ := ih (Chain ++ [c]) (some nxt)
          exact ⟨[c] ++ s, by rw [hs, List.append_assoc]⟩

lemma chainAux_nodup (Store : List UEnemyTemplate) :
    ∀ (Fuel : Nat) (Chain : List Nat) (Cur : Option Nat),
    Chain.Nodup → (∀ c, Cur = some c → c ∉ Chain) →
    (GetInheritanceChainAux Store Fuel Chain Cur).Nodup := by
  intro Fuel
  induction Fuel with
  | zero =>
    intro Chain Cur h1 _
    cases Cur <;> simpa [GetInheritanceChainAux] using h1
  | succ f ih =>
    intro Chain Cur h1 h2
    cases Cur with
    | none => simpa [GetInheritanceChainAux] using h1
    | some c =>
      have hc : c ∉ Chain := h2 c rfl
      have hn1 : (Chain ++ [c]).Nodup := by
        simp [List.nodup_append, h1, List.disjoint_singleton, hc]
      rw [GetInheritanceChainAux]
      rcases hp : ParentIdOf Store c with _ | nxt
      · exact hn1
      · show (if nxt ∈ Chain ++ [c] then Chain ++ [c]
            else GetInheritanceChainAux Store f (Chain ++ [c]) (some nxt)).Nodup
        by_cases hm : nxt ∈ Chain ++ [c]
        · rw [if_pos hm]
          exact hn1
        · rw [if_neg hm]
          exact ih (Chain ++ [c]) (some nxt) hn1 (by
            intro c2 hc2
            rw [Option.some.injEq] at hc2
            rw [← hc2]
            exact hm)

lemma ParentIdOf_mem (Store : List UEnemyTemplate) (i : Nat) (nxt : Nat)
    (h : ParentIdOf Store i = some nxt) : i ∈ CandidateIds Store := by
  unfold ParentIdOf at h
  rcases hf : FindTemplate Store i with _ | tc
  · rw [hf] at h
    simp at h
  · exact FindTemplate_mem Store i tc hf

lemma chainAux_fuel_congr (Store : List UEnemyTemplate) :
    ∀ (f1 f2 : Nat) (Chain : List Nat) (Cur : Nat), Cur ∉ Chain →
    ((CandidateIds Store).filter (fun i => decide (i ∉ Chain))).length + 2 ≤ f1 →
    ((CandidateIds Store).filter (fun i => decide (i ∉ Chain))).length + 2 ≤ f2 →
    GetInheritanceChainAux Store f1 Chain (some Cur) =
    GetInheritanceChainAux Store f2 Chain (some Cur) := by
  intro f1
  induction f1 with
  | zero =>
    intro f2 Chain Cur _ h1 _
    omega
  | succ a ih =>
    intro f2 Chain Cur hcur h1 h2
    rcases f2 with _ | b
    · omega
    · rw [GetInheritanceChainAux, GetInheritanceChainAux]
      rcases hp : ParentIdOf Store Cur with _ | nxt
      · rfl
      · show (if nxt ∈ Chain ++ [Cur] then Chain ++ [Cur]
            else GetInheritanceChainAux Store a (Chain ++ [Cur]) (some nxt)) =
          (if nxt ∈ Chain ++ [Cur] then Chain ++ [Cur]
            else GetInheritanceChainAux Store b (Chain ++ [Cur]) (some nxt))
        by_cases hm : nxt ∈ Chain ++ [Cur]
        · rw [if_pos hm, if_pos hm]
        · rw [if_neg hm, if_neg hm]
          have hmemc : Cur ∈ CandidateIds Store := ParentIdOf_mem Store Cur nxt hp
          have hpoint : ∀ x, (fun i => decide (i ∉ Chain ++ [Cur])) x = true →
              (fun i => decide (i ∉ Chain)) x = true := by
            intro x hx
            rw [decide_eq_true_eq] at hx ⊢
            exact fun hmem => hx (List.mem_append.mpr (Or.inl hmem))
          have hlt := filter_length_lt (CandidateIds Store)
            (fun i => decide (i ∉ Chain ++ [Cur])) (fun i => decide (i ∉ Chain))
            hpoint Cur hmemc
            (decide_eq_false (not_not_intro (List.mem_append.mpr (Or.inr (by simp)))))
            (decide_eq_true hcur)
          exact ih b (Chain ++ [Cur]) nxt hm (by omega) (by omega)

lemma chain_head (Store : List UEnemyTemplate) (t : UEnemyTemplate) :
    (t.GetInheritanceChain Store).head? = some t.id := by
  unfold UEnemyTemplate.GetInheritanceChain
  rw [GetInheritanceChainAux]
  rcases hp : ParentIdOf Store t.id with _ | nxt
  · rfl
  · show (if nxt ∈ ([] : List Nat) ++ [t.id] then ([] : List Nat) ++ [t.id]
        else GetInheritanceChainAux Store (Store.length + 1) ([] ++ [t.id]) (some nxt)).head? =
      some t.id
    by_cases hm : nxt ∈ ([] : List Nat) ++ [t.id]
    · rw [if_pos hm]
      rfl
    · rw [if_neg hm]
      obtain ⟨s, hs⟩ := chainAux_extends Store (Store.length + 1) ([] ++ [t.id]) (some nxt)
      rw [hs]
      rfl

/- Helper lemmas for the stat merge. -/

lemma apply_Health (s : FEnemyBaseStats) (k : String) (v : Rat) (hk : k ≠ "Health") :
    (ApplyStatMultiplier s k v).Health = s.Health := by
  unfold ApplyStatMultiplier
  split_ifs <;> simp_all

lemma apply_Damage (s : FEnemyBaseStats) (k : String) (v : Rat) (hk : k ≠ "Damage") :
    (ApplyStatMultiplier s k v).Damage = s.Damage := by
  unfold ApplyStatMultiplier
  split_ifs <;> simp_all

lemma apply_Speed (s : FEnemyBaseStats) (k : String) (v : Rat) (hk : k ≠ "Speed") :
    (ApplyStatMultiplier s k v).Speed = s.Speed := by
  unfold ApplyStatMultiplier
  split_ifs <;> simp_all

lemma apply_AttackSpeed (s : FEnemyBaseStats) (k : String) (v : Rat) (hk : k ≠ "AttackSpeed") :
    (ApplyStatMultiplier s k v).AttackSpeed = s.AttackSpeed := by
  unfold ApplyStatMultiplier
  split_ifs <;> simp_all

lemma apply_Defense (s : FEnemyBaseStats) (k : String) (v : Rat) (hk : k ≠ "Defense") :
    (ApplyStatMultiplier s k v).Defense = s.Defense := by
  unfold ApplyStatMultiplier
  split_ifs <;> simp_all

lemma apply_CriticalChance (s : FEnemyBaseStats) (k : String) (v : Rat)
    (hk : k ≠ "CriticalChance") :
    (ApplyStatMultiplier s k v).CriticalChance = s.CriticalChance := by
  unfold ApplyStatMultiplier
  split_ifs <;> simp_all

lemma apply_CriticalMultiplier (s : FEnemyBaseStats) (k : String) (v : Rat)
    (hk : k ≠ "CriticalMultiplier") :
    (ApplyStatMultiplier s k v).CriticalMultiplier = s.CriticalMultiplier := by
  unfold ApplyStatMultiplier
  split_ifs <;> simp_all

lemma StatField_applyOther (s : FEnemyBaseStats) (k : String) (v : Rat) (f : String)
    (hk : k ≠ f) : StatField f (ApplyStatMultiplier s k v) = StatField f s := by
  unfold StatField
  split_ifs with h1 h2 h3 h4 h5 h6 h7
  · exact apply_Health s k v (by rw [← h1]; exact hk)
  · exact apply_Damage s k v (by rw [← h2]; exact hk)
  · exact apply_Speed s k v (by rw [← h3]; exact hk)
  · exact apply_AttackSpeed s k v (by rw [← h4]; exact hk)
  · exact apply_Defense s k v (by rw [← h5]; exact hk)
  · exact apply_CriticalChance s k v (by rw [← h6]; exact hk)
  · exact apply_CriticalMultiplier s k v (by rw [← h7]; exact hk)
  · rfl

lemma StatField_foldOther (f : String) :
    ∀ (entries : List (String × Rat)) (s : FEnemyBaseStats),
    (∀ e ∈ entries, e.1 ≠ f) →
    StatField f (entries.foldl (fun a e => ApplyStatMultiplier a e.1 e.2) s) = StatField f s
  | [], s, _ => rfl
  | e :: rest, s, h => by
    rw [List.foldl_cons]
    rw [StatField_foldOther f rest _ (fun x hx => h x (List.mem_cons.mpr (Or.inr hx)))]
    exact StatField_applyOther s e.1 e.2 f (h e (List.mem_cons.mpr (Or.inl rfl)))

/- Helper lemmas for the first-failure behaviour of the configuration loops. -/

lemma StatLoop_allPos :
    ∀ (l : List (String × Rat)) (r : FEnemyTemplateValidationResult),
    (∀ e ∈ l, 0 < e.2) → ValidateStatMultipliersLoop l r = (true, r)
  | [], _, _ => rfl
  | (k, v) :: rest, r, h => by
    unfold ValidateStatMultipliersLoop
    rw [if_neg (by
      have := h (k, v) (List.mem_cons.mpr (Or.inl rfl))
      simp only [not_le]
      exact this)]
    exact StatLoop_allPos rest r (fun e he => h e (List.mem_cons.mpr (Or.inr he)))

lemma StatLoop_firstBad :
    ∀ (pre : List (String × Rat)) (k : String) (v : Rat) (post : List (String × Rat))
    (r : FEnemyTemplateValidationResult),
    (∀ e ∈ pre, 0 < e.2) → v ≤ 0 →
    ValidateStatMultipliersLoop (pre ++ (k, v) :: post) r =
      (false, r.AddError (InvalidStatMultiplierMsg v k))
  | [], k, v, post, r, _, hv => by
    show (if v ≤ 0 then (false, r.AddError (InvalidStatMultiplierMsg v k))
        else ValidateStatMultipliersLoop post r) =
      (false, r.AddError (InvalidStatMultiplierMsg v k))
    rw [if_pos hv]
  | e :: pre, k, v, post, r, hpre, hv => by
    rw [List.cons_append]
    unfold ValidateStatMultipliersLoop
    rcases e with ⟨ek, ev⟩
    rw [if_neg (by
      have := hpre (ek, ev) (List.mem_cons.mpr (Or.inl rfl))
      simp only [not_le]
      exact this)]
    exact StatLoop_firstBad pre k v post r
      (fun x hx => hpre x (List.mem_cons.mpr (Or.inr hx))) hv

lemma AbLoop_allGood (A : List FEnemyAbilityDefinition) :
    ∀ (l : List (String × FEnemyAbilityDefinition)) (r : FEnemyTemplateValidationResult),
    (∀ e ∈ l, GoodAbilityKey A e.1) → ValidateModifiedAbilitiesLoop A l r = (true, r)
  | [], _, _ => rfl
  | (k, ab) :: rest, r, h => by
    unfold ValidateModifiedAbilitiesLoop
    have hg := h (k, ab) (List.mem_cons.mpr (Or.inl rfl))
    rw [if_neg hg.1, if_neg (by
      rw [hg.2]
      simp)]
    exact AbLoop_allGood A rest r (fun e he => h e (List.mem_cons.mpr (Or.inr he)))

lemma AbLoop_firstBad (A : List FEnemyAbilityDefinition) :
    ∀ (pre : List (String × FEnemyAbilityDefinition)) (k : String)
    (ab : FEnemyAbilityDefinition) (post : List (String × FEnemyAbilityDefinition))
    (r : FEnemyTemplateValidationResult),
    (∀ e ∈ pre, GoodAbilityKey A e.1) → ¬ GoodAbilityKey A k →
    ValidateModifiedAbilitiesLoop A (pre ++ (k, ab) :: post) r =
      (false, r.AddError (if k = "" then InvalidAbilityModificationMsg
        else UnknownAbilityModificationMsg k))
  | [], k, ab, post, r, _, hbad => by
    show (if k = "" then (false, r.AddError InvalidAbilityModificationMsg)
        else if (A.any (fun ta => decide (ta.AbilityName = k))) = false then
          (false, r.AddError (UnknownAbilityModificationMsg k))
        else ValidateModifiedAbilitiesLoop A post r) =
      (false, r.AddError (if k = "" then InvalidAbilityModificationMsg
        else UnknownAbilityModificationMsg k))
    by_cases hk : k = ""
    · rw [if_pos hk, if_pos hk]
    · rw [if_neg hk, if_neg hk]
      have hfind : (A.any (fun ta => decide (ta.AbilityName = k))) = false := by
        rcases hb : A.any (fun ta => decide (ta.AbilityName = k))
        · rfl
        · exact absurd ⟨hk, hb⟩ hbad
      rw [if_pos (by rw [hfind])]
  | e :: pre, k, ab, post, r, hpre, hbad => by
    rw [List.cons_append]
    unfold ValidateModifiedAbilitiesLoop
    rcases e with ⟨ek, eab⟩
    have hg := hpre (ek, eab) (List.mem_cons.mpr (Or.inl rfl))
    rw [if_neg hg.1, if_neg (by
      rw [hg.2]
      simp)]
    exact AbLoop_firstBad A pre k ab post r
      (fun x hx => hpre x (List.mem_cons.mpr (Or.inr hx))) hbad

/- Lemmas for the cyclic validation recursion. -/

lemma cyc_vt_none : ∀ Fuel : Nat,
    (∀ r0, ValidateTemplateFuel CycStore Fuel CycT1 r0 = none) ∧
    (∀ r0, ValidateTemplateFuel CycStore Fuel CycT2 r0 = none) := by
  intro Fuel
  induction Fuel with
  | zero => exact ⟨fun _ => rfl, fun _ => rfl⟩
  | succ f ih =>
    have h1 : ResolveParent CycStore CycT1 = some CycT2 := by decide
    have h2 : ResolveParent CycStore CycT2 = some CycT1 := by decide
    constructor
    · intro r0
      rw [ValidateTemplateFuel]
      simp only [h1]
      rw [ih.2 DefaultValidationResult]
    · intro r0
      rw [ValidateTemplateFuel]
      simp only [h2]
      rw [ih.1 DefaultValidationResult]

lemma VT_terminates (Store : List UEnemyTemplate) :
    ∀ (n : Nat) (t : UEnemyTemplate) (r0 : FEnemyTemplateValidationResult) (Fuel : Nat),
    IterParent Store n (some t) = none → n ≤ Fuel →
    (ValidateTemplateFuel Store Fuel t r0).isSome = true := by
  intro n
  induction n with
  | zero =>
    intro t r0 Fuel hiter _
    simp [IterParent] at hiter
  | succ m ih =>
    intro t r0 Fuel hiter hle
    rw [IterParent] at hiter
    rcases Fuel with _ | f
    · omega
    · rw [ValidateTemplateFuel]
      rcases hp : ResolveParent Store t with _ | p
      · simp [hp]
      · rw [hp] at hiter
        have hrec := ih p DefaultValidationResult f hiter (by omega)
        rcases hvr : ValidateTemplateFuel Store f p DefaultValidationResult with _ | pres
        · rw [hvr] at hrec
          simp at hrec
        · simp [hp, hvr]

/-- C4: when a modification is supplied, ApplyToInstance uses the
modification's visual record and AI record wholesale — the effective
records do not depend on the template at all — and with no modification it
uses the template's own records unchanged. -/
theorem claimC4 :
    ∀ (t1 t2 : UEnemyTemplate) (m : FEnemyTemplateModification),
    t1.FinalVisuals (some m) = m.VisualModifications ∧
    t1.FinalAIConfig (some m) = m.AIModifications ∧
    t1.FinalVisuals (some m) = t2.FinalVisuals (some m) ∧
    t1.FinalAIConfig (some m) = t2.FinalAIConfig (some m) ∧
    t1.FinalVisuals none = t1.VisualCustomization ∧
    t1.FinalAIConfig none = t1.AIConfig :=
  fun _ _ _ => ⟨rfl, rfl, rfl, rfl, rfl, rfl⟩

/-- C7: ValidateTemplate clears the in-out result on entry, so the outcome
is a function of the template alone — two calls on an unchanged template
(whatever result state each starts from) produce identical validity flags
and identical ordered error and warning lists. -/
theorem claimC7 :
    ∀ (Store : List UEnemyTemplate) (Fuel : Nat) (t : UEnemyTemplate)
    (r1 r2 : FEnemyTemplateValidationResult),
    ValidateTemplateFuel Store Fuel t r1 = ValidateTemplateFuel Store Fuel t r2 :=
  fun Store Fuel t r1 r2 => VT_ignores_seed Store Fuel t r1 r2

/-- C8: with an absent base-template reference, ValidateConfiguration
returns a result (no fault) that is invalid with exactly the single error
"No base template specified"; with a set but unresolvable reference it
returns exactly "Base template reference is invalid"; in both cases no
stat-multiplier or modified-ability check runs (the result does not depend
on the modifications). -/
theorem claimC8 :
    ∀ (Store : List UEnemyTemplate) (Fuel : Nat) (cfg : UEnemyConfiguration)
    (r0 : FEnemyTemplateValidationResult),
    (cfg.BaseTemplate.IsValid = false →
      cfg.ValidateConfiguration Store Fuel r0 = some (false, NoBaseResult)) ∧
    (cfg.BaseTemplate.IsValid = true → ResolveRef Store cfg.BaseTemplate = none →
      cfg.ValidateConfiguration Store Fuel r0 = some (false, InvalidBaseResult)) := by
  intro Store Fuel cfg r0
  constructor
  · intro h
    unfold UEnemyConfiguration.ValidateConfiguration
    rw [if_pos h]
    rfl
  · intro h1 h2
    unfold UEnemyConfiguration.ValidateConfiguration
    rw [if_neg (by rw [h1]; simp)]
    simp only [h2]
    rfl

theorem claimC8_witness :
    CfgNoBase.ValidateConfiguration Store1 1 DefaultValidationResult =
      some (false, NoBaseResult) ∧
    CfgDangling.ValidateConfiguration Store1 1 DefaultValidationResult =
      some (false, InvalidBaseResult) :=
  ⟨(claimC8 Store1 1 CfgNoBase DefaultValidationResult).1 rfl,
   (claimC8 Store1 1 CfgDangling DefaultValidationResult).2 rfl (by decide)⟩

/-- C9: the parent recursion of ValidateTemplate has no cycle guard: it
terminates (the fuel never runs out) whenever the template's parent chain
reaches a root in finitely many steps, with any fuel at least the chain
depth; and on the concrete two-template cycle CycT1 -> CycT2 -> CycT1 the
recursion bottoms out for no amount of fuel. -/
theorem claimC9 :
    (∀ (Store : List UEnemyTemplate) (n : Nat) (t : UEnemyTemplate)
      (r0 : FEnemyTemplateValidationResult) (Fuel : Nat),
      IterParent Store n (some t) = none → n ≤ Fuel →
      (ValidateTemplateFuel Store Fuel t r0).isSome = true) ∧
    (∀ (Fuel : Nat) (r0 : FEnemyTemplateValidationResult),
      ValidateTemplateFuel CycStore Fuel CycT1 r0 = none) :=
  ⟨fun Store n t r0 Fuel h1 h2 => VT_terminates Store n t r0 Fuel h1 h2,
   fun Fuel r0 => (cyc_vt_none Fuel).1 r0⟩

theorem claimC9_witness :
    (ValidateTemplateFuel Store1 1 TGood DefaultValidationResult).isSome = true ∧
    ValidateTemplateFuel CycStore 3 CycT1 DefaultValidationResult = none :=
  ⟨claimC9.1 Store1 1 TGood DefaultValidationResult 1 (by decide) (by decide),
   claimC9.2 3 DefaultValidationResult⟩

/-- C10: for ValidateTemplate and for ValidateConfiguration, the boolean
return value always equals the result's bIsValid flag, and after the call
bIsValid is false exactly when the error list is non-empty (warnings never
affect it) — including the path where a parent's errors are appended
directly after the wrapping AddError. -/
theorem claimC10 :
    (∀ (Store : List UEnemyTemplate) (Fuel : Nat) (t : UEnemyTemplate)
      (r0 : FEnemyTemplateValidationResult) (b : Bool) (r : FEnemyTemplateValidationResult),
      ValidateTemplateFuel Store Fuel t r0 = some (b, r) →
      b = r.bIsValid ∧ (r.bIsValid = false ↔ r.ValidationErrors ≠ [])) ∧
    (∀ (Store : List UEnemyTemplate) (Fuel : Nat) (cfg : UEnemyConfiguration)
      (r0 : FEnemyTemplateValidationResult) (b : Bool) (r : FEnemyTemplateValidationResult),
      cfg.ValidateConfiguration Store Fuel r0 = some (b, r) →
      b = r.bIsValid ∧ (r.bIsValid = false ↔ r.ValidationErrors ≠ [])) :=
  ⟨fun Store Fuel t r0 b r h => VT_sound Store Fuel t r0 b r h,
   fun Store Fuel cfg r0 b r h => VC_sound Store Fuel cfg r0 b r h⟩

theorem claimC10_witness :
    (true = EmptyValidationResult.bIsValid ∧
      (EmptyValidationResult.bIsValid = false ↔
        EmptyValidationResult.ValidationErrors ≠ [])) ∧
    (false = NoBaseResult.bIsValid ∧
      (NoBaseResult.bIsValid = false ↔ NoBaseResult.ValidationErrors ≠ [])) :=
  ⟨claimC10.1 Store1 1 TGood DefaultValidationResult true EmptyValidationResult (by decide),
   claimC10.2 Store1 1 CfgNoBase DefaultValidationResult false NoBaseResult (by decide)⟩

/-- C2: effective stats start from the template's base stats; each
(statKey, multiplier) entry multiplies exactly the named fixed stat field;
unknown keys change nothing; a field named by no entry keeps its base
value; base stats health 100 / damage 20 with multiplier damage 2 give
health 100 / damage 40; and a negative multiplier is applied by
multiplication, not clamped (damage 20 with multiplier -2 gives -40). -/
theorem claimC2 :
    (∀ (s : FEnemyBaseStats) (k : String) (v : Rat),
      k ∉ FixedStatKeys → ApplyStatMultiplier s k v = s) ∧
    (∀ (t : UEnemyTemplate) (m : FEnemyTemplateModification) (f : String),
      (∀ e ∈ m.StatMultipliers, e.1 ≠ f) →
      StatField f (t.FinalStats (some m)) = StatField f t.BaseStats) ∧
    ((TGood.FinalStats (some DamageDoubleMod)).Health = 100 ∧
      (TGood.FinalStats (some DamageDoubleMod)).Damage = 40) ∧
    (TGood.FinalStats (some DamageNegMod)).Damage = -40 := by
  refine ⟨?_, ?_, ?_, ?_⟩
  · intro s k v hk
    simp only [FixedStatKeys, List.mem_cons, List.not_mem_nil, or_false, not_or] at hk
    obtain ⟨h1, h2, h3, h4, h5, h6, h7⟩ := hk
    unfold ApplyStatMultiplier
    split_ifs <;> simp_all
  · intro t m f h
    exact StatField_foldOther f m.StatMultipliers t.BaseStats h
  · constructor
    · simp [UEnemyTemplate.FinalStats, ApplyStatMultiplier, TGood, DamageDoubleMod,
        EmptyMod, DefaultBaseStats]
    · simp [UEnemyTemplate.FinalStats, ApplyStatMultiplier, TGood, DamageDoubleMod,
        EmptyMod, DefaultBaseStats]
      norm_num
  · simp [UEnemyTemplate.FinalStats, ApplyStatMultiplier, TGood, DamageNegMod,
      EmptyMod, DefaultBaseStats]
    norm_num

theorem claimC2_witness :
    ApplyStatMultiplier DefaultBaseStats "Mana" 2 = DefaultBaseStats ∧
    StatField "Health" (TGood.FinalStats (some DamageDoubleMod)) =
      StatField "Health" TGood.BaseStats :=
  ⟨claimC2.1 DefaultBaseStats "Mana" 2 (by decide),
   claimC2.2.1 TGood DamageDoubleMod "Health" (by decide)⟩

/-- C3: the applied ability list is exactly the template's ability list in
template order — same length, each position holding the override from
modifiedAbilities when the map has the ability's name and the template's
own definition otherwise — so map entries matching no template ability are
never applied; concretely, the template with just BasicAttack under a
Fireball-keyed modification yields just the unmodified BasicAttack, while
validation reports the unknown-ability error for Fireball. -/
theorem claimC3 :
    (∀ (t : UEnemyTemplate) (m : FEnemyTemplateModification),
      (t.FinalAbilities (some m)).length = t.Abilities.length) ∧
    (∀ (t : UEnemyTemplate) (m : FEnemyTemplateModification) (i : Nat),
      (t.FinalAbilities (some m))[i]? = (t.Abilities[i]?).map (fun ab =>
        match MapFindAbility m.ModifiedAbilities ab.AbilityName with
        | some ov => ov
        | none => ab)) ∧
    TGood.FinalAbilities (some CfgFireball.Modifications) = [BasicAttackDef] ∧
    CfgFireball.ValidateConfiguration Store1 1 DefaultValidationResult =
      some (false, FireballErrorResult) := by
  refine ⟨?_, ?_, ?_, ?_⟩
  · intro t m
    simp [UEnemyTemplate.FinalAbilities]
  · intro t m i
    simp [UEnemyTemplate.FinalAbilities, List.getElem?_map]
  · decide
  · decide

/-- C5: GetInheritanceChain starts at the template itself, never repeats a
template (so it terminates on every parent graph, cycles included), equals
exactly the single template when there is no parent, and its result is
already stable at fuel Store.length + 2 — any larger fuel gives the same
chain, so the loop exits within the number of distinct reachable
templates. -/
theorem claimC5 :
    ∀ (Store : List UEnemyTemplate) (t : UEnemyTemplate),
    (t.GetInheritanceChain Store).head? = some t.id ∧
    (t.GetInheritanceChain Store).Nodup ∧
    (FindTemplate Store t.id = some t → t.ParentTemplate = none →
      t.GetInheritanceChain Store = [t.id]) ∧
    (∀ Fuel, Store.length + 2 ≤ Fuel →
      GetInheritanceChainAux Store Fuel [] (some t.id) = t.GetInheritanceChain Store) := by
  intro Store t
  refine ⟨chain_head Store t, ?_, ?_, ?_⟩
  · exact chainAux_nodup Store (Store.length + 2) [] (some t.id) (by simp) (by simp)
  · intro hfind hpar
    have hpid : ParentIdOf Store t.id = none := by
      unfold ParentIdOf
      rw [hfind]
      exact hpar
    unfold UEnemyTemplate.GetInheritanceChain
    rw [GetInheritanceChainAux]
    simp only [hpid]
    rfl
  · intro Fuel hF
    have hflen : ((CandidateIds Store).filter
        (fun i => decide (i ∉ ([] : List Nat)))).length = Store.length := by
      simp [CandidateIds]
    exact chainAux_fuel_congr Store Fuel (Store.length + 2) [] t.id (by simp)
      (by omega) (by omega)

theorem claimC5_witness :
    TGood.GetInheritanceChain Store1 = [TGood.id] ∧
    GetInheritanceChainAux Store1 5 [] (some TGood.id) = TGood.GetInheritanceChain Store1 ∧
    (CycT1.GetInheritanceChain CycStore).Nodup :=
  ⟨(claimC5 Store1 TGood).2.2.1 (by decide) rfl,
   (claimC5 Store1 TGood).2.2.2 5 (by decide),
   (claimC5 CycStore CycT1).2.1⟩

/-- C1 (amended): when the base template passes ValidateTemplate,
ValidateConfiguration stops at the FIRST failing entry instead of checking
all of them: with the stat multipliers split as pre ++ (k, v) :: post where
every entry of pre is positive and v <= 0, the call returns immediately
with exactly that one error naming the value and the stat key; and when all
multipliers pass, the modified-ability loop likewise returns at its first
bad key with exactly that key's single error. -/
theorem claimC1 :
    (∀ (Store : List UEnemyTemplate) (Fuel : Nat) (cfg : UEnemyConfiguration)
      (r0 r1 : FEnemyTemplateValidationResult) (t : UEnemyTemplate)
      (pre : List (String × Rat)) (k : String) (v : Rat) (post : List (String × Rat)),
      cfg.BaseTemplate.IsValid = true →
      ResolveRef Store cfg.BaseTemplate = some t →
      ValidateTemplateFuel Store Fuel t r0.Clear = some (true, r1) →
      cfg.Modifications.StatMultipliers = pre ++ (k, v) :: post →
      (∀ e ∈ pre, 0 < e.2) → v ≤ 0 →
      cfg.ValidateConfiguration Store Fuel r0 =
        some (false, r1.AddError (InvalidStatMultiplierMsg v k))) ∧
    (∀ (Store : List UEnemyTemplate) (Fuel : Nat) (cfg : UEnemyConfiguration)
      (r0 r1 : FEnemyTemplateValidationResult) (t : UEnemyTemplate)
      (pre : List (String × FEnemyAbilityDefinition)) (k : String)
      (ab : FEnemyAbilityDefinition) (post : List (String × FEnemyAbilityDefinition)),
      cfg.BaseTemplate.IsValid = true →
      ResolveRef Store cfg.BaseTemplate = some t →
      ValidateTemplateFuel Store Fuel t r0.Clear = some (true, r1) →
      (∀ e ∈ cfg.Modifications.StatMultipliers, 0 < e.2) →
      cfg.Modifications.ModifiedAbilities = pre ++ (k, ab) :: post →
      (∀ e ∈ pre, GoodAbilityKey t.Abilities e.1) →
      ¬ GoodAbilityKey t.Abilities k →
      cfg.ValidateConfiguration Store Fuel r0 =
        some (false, r1.AddError (if k = "" then InvalidAbilityModificationMsg
          else UnknownAbilityModificationMsg k))) := by
  constructor
  · intro Store Fuel cfg r0 r1 t pre k v post hval hres hvt hsm hpre hv
    unfold UEnemyConfiguration.ValidateConfiguration
    rw [if_neg (by rw [hval]; simp)]
    simp only [hres, hvt, hsm, StatLoop_firstBad pre k v post r1 hpre hv]
    simp
  · intro Store Fuel cfg r0 r1 t pre k ab post hval hres hvt hall hma hgood hbad
    unfold UEnemyConfiguration.ValidateConfiguration
    rw [if_neg (by rw [hval]; simp)]
    simp only [hres, hvt, StatLoop_allPos cfg.Modifications.StatMultipliers r1 hall,
      hma, AbLoop_firstBad t.Abilities pre k ab post r1 hgood hbad]
    simp

/-- C1 counterexample: a configuration over a valid base template with TWO
bad stat multipliers (0 for Health and -1 for Damage) produces a result
with exactly ONE error — the claim's one-error-per-bad-entry reading is
false on the code, which returns at the first bad entry. -/
theorem claimC1_counterexample :
    CfgTwoBad.Modifications.StatMultipliers = [("Health", 0), ("Damage", -1)] ∧
    (0 : Rat) ≤ 0 ∧ (-1 : Rat) ≤ 0 ∧
    CfgTwoBad.ValidateConfiguration Store1 1 DefaultValidationResult =
      some (false, TwoBadFirstErrorResult) ∧
    TwoBadFirstErrorResult.ValidationErrors.length = 1 :=
  ⟨rfl, by decide, by decide, by decide, by decide⟩

theorem claimC1_witness :
    CfgTwoBad.ValidateConfiguration Store1 1 DefaultValidationResult =
      some (false, EmptyValidationResult.AddError (InvalidStatMultiplierMsg 0 "Health")) ∧
    CfgFireball.ValidateConfiguration Store1 1 DefaultValidationResult =
      some (false, EmptyValidationResult.AddError (if "Fireball" = "" then
        InvalidAbilityModificationMsg else UnknownAbilityModificationMsg "Fireball")) :=
  ⟨claimC1.1 Store1 1 CfgTwoBad DefaultValidationResult EmptyValidationResult TGood
      [] "Health" 0 [("Damage", -1)] rfl (by decide) (by decide) rfl (by decide) (by decide),
   claimC1.2 Store1 1 CfgFireball DefaultValidationResult EmptyValidationResult TGood
      [] "Fireball" FireballDef [] rfl (by decide) (by decide) (by decide) rfl
      (by decide) (by decide)⟩

/-- C6 (amended): for EVERY template whose visual customization has no
skeletal-mesh reference, ValidateTemplate returns invalid with the
"Skeletal mesh is required" error appended LAST, after exactly what the
identity checks and the parent validation contributed (the pre-visual
stage), so the template's own AI and ability checks never run; in
particular, with no parent the error list is exactly the optional
identity error followed by the mesh error; and when the mesh is present,
a missing animation blueprint only appends a warning, leaving the
validity flag and error list untouched. -/
theorem claimC6 :
    (∀ (Store : List UEnemyTemplate) (Fuel : Nat) (t : UEnemyTemplate)
      (r0 : FEnemyTemplateValidationResult),
      t.VisualCustomization.SkeletalMesh = false →
      ValidateTemplateFuel Store Fuel t r0 =
        (PreVisualStage Store Fuel t).map
          (fun rpre => (false, rpre.AddError NoSkeletalMeshMsg))) ∧
    (∀ (Store : List UEnemyTemplate) (Fuel : Nat) (t : UEnemyTemplate)
      (r0 : FEnemyTemplateValidationResult),
      t.VisualCustomization.SkeletalMesh = false → t.ParentTemplate = none →
      ValidateTemplateFuel Store (Fuel + 1) t r0 = some (false,
        { bIsValid := false,
          ValidationErrors :=
            (if t.TemplateName = "" then [NoTemplateNameMsg] else []) ++ [NoSkeletalMeshMsg],
          ValidationWarnings :=
            if t.DisplayName = "" then [NoDisplayNameMsg] else [] })) ∧
    (∀ (t : UEnemyTemplate) (r : FEnemyTemplateValidationResult),
      t.VisualCustomization.SkeletalMesh = true →
      (t.ValidateVisualAssets r).1 = true ∧
      (t.ValidateVisualAssets r).2.bIsValid = r.bIsValid ∧
      (t.ValidateVisualAssets r).2.ValidationErrors = r.ValidationErrors ∧
      (t.ValidateVisualAssets r).2.ValidationWarnings = r.ValidationWarnings ++
        (if t.VisualCustomization.AnimationBlueprint = false then [NoAnimBPMsg] else [])) := by
  refine ⟨?_, ?_, ?_⟩
  · intro Store Fuel t r0 hmesh
    have htail : ∀ rr, TailChecks t rr = (false, rr.AddError NoSkeletalMeshMsg) := by
      intro rr
      have hvv1 : (t.ValidateVisualAssets rr).1 = false := by
        unfold UEnemyTemplate.ValidateVisualAssets
        rw [if_pos hmesh]
      unfold TailChecks
      rw [if_pos hvv1, VVA_false t rr hvv1]
    cases Fuel with
    | zero => rfl
    | succ f =>
      rw [ValidateTemplateFuel, PreVisualStage]
      rcases hp : ResolveParent Store t with _ | p
      · simp [hp, htail, Clear_eq_empty]
      · rcases hrec : ValidateTemplateFuel Store f p DefaultValidationResult with _ | pres
        · simp [hp, hrec]
        · simp [hp, hrec, htail, Clear_eq_empty]
  · intro Store Fuel t r0 hmesh hpar
    have hrp : ResolveParent Store t = none := by
      unfold ResolveParent
      rw [hpar]
    rw [ValidateTemplateFuel]
    simp only [hrp]
    have hvv1 : (t.ValidateVisualAssets (IdentityChecks t r0.Clear)).1 = false := by
      unfold UEnemyTemplate.ValidateVisualAssets
      rw [if_pos hmesh]
    unfold TailChecks
    rw [if_pos hvv1, VVA_false t (IdentityChecks t r0.Clear) hvv1]
    unfold IdentityChecks FEnemyTemplateValidationResult.Clear
    split_ifs <;> rfl
  · intro t r hmesh
    unfold UEnemyTemplate.ValidateVisualAssets
    rw [if_neg (by rw [hmesh]; simp)]
    by_cases hab : t.VisualCustomization.AnimationBlueprint = false
    · rw [if_pos hab, if_pos hab]
      exact ⟨rfl, rfl, rfl, rfl⟩
    · rw [if_neg hab, if_neg hab]
      exact ⟨rfl, rfl, rfl, by simp⟩

/-- C6 counterexample: a template that is missing both its name and its
skeletal mesh yields TWO errors, so "exactly the no skeletal mesh error"
is false as a statement about every mesh-less template: the identity check
runs first and contributes its own error. -/
theorem claimC6_counterexample :
    ValidateTemplateFuel [] 1 TNoNameNoMesh DefaultValidationResult =
      some (false, NoNameNoMeshResult) ∧
    NoNameNoMeshResult.ValidationErrors ≠ [NoSkeletalMeshMsg] :=
  ⟨by decide, by decide⟩

theorem claimC6_witness :
    ValidateTemplateFuel Store1 2 TParentedNoMesh DefaultValidationResult =
      (PreVisualStage Store1 2 TParentedNoMesh).map
        (fun rpre => (false, rpre.AddError NoSkeletalMeshMsg)) ∧
    ValidateTemplateFuel [] (0 + 1) TNoNameNoMesh DefaultValidationResult = some (false,
      { bIsValid := false,
        ValidationErrors := (if TNoNameNoMesh.TemplateName = "" then [NoTemplateNameMsg]
          else []) ++ [NoSkeletalMeshMsg],
        ValidationWarnings := if TNoNameNoMesh.DisplayName = "" then [NoDisplayNameMsg]
          else [] }) ∧
    ((TGood.ValidateVisualAssets DefaultValidationResult).1 = true ∧
      (TGood.ValidateVisualAssets DefaultValidationResult).2.bIsValid =
        DefaultValidationResult.bIsValid ∧
      (TGood.ValidateVisualAssets DefaultValidationResult).2.ValidationErrors =
        DefaultValidationResult.ValidationErrors ∧
      (TGood.ValidateVisualAssets DefaultValidationResult).2.ValidationWarnings =
        DefaultValidationResult.ValidationWarnings ++
          (if TGood.VisualCustomization.AnimationBlueprint = false then [NoAnimBPMsg]
            else [])) :=
  ⟨claimC6.1 Store1 2 TParentedNoMesh DefaultValidationResult rfl,
   claimC6.2.1 [] 0 TNoNameNoMesh DefaultValidationResult rfl rfl,
   claimC6.2.2 TGood DefaultValidationResult rfl⟩
